import Mathlib

/-
Verification of the membrane permeate-flux parameter-estimation program
(src/model_training/functions.py), shallowly embedded in Lean.

The numpy float arrays are embedded as lists over an exact field: the
algebraic definitions (`model`, `objective_function`, `jac`) are polymorphic
over a `Field`, instantiated at ℚ for executable claims and at ℝ for the
derivative claims.  A float evaluation that would produce `inf`/`nan`
(division by a vanishing denominator) is modelled as `none`/an error value,
since those are exactly the inputs at which exact arithmetic and float
arithmetic part ways.

The iterative solver is scipy.optimize.least_squares in the source — an
external library call — so the solver itself is modelled from the spec
(§4.4): an initial-residual finiteness check followed by a damped
Gauss-Newton loop with gradient/step/iteration-cap termination.  The
definitions modelled this way carry a doc comment saying so.
-/

/-- ParameterVector: ordered triple of reals `[a, b, d]`, positional semantics
tied to the model (`param[0] = a`, `param[1] = b`, `param[2] = d`). -/
structure Params (K : Type) where
  a : K
  b : K
  d : K
deriving DecidableEq, Repr

/-- Scalar core of `model` from the source, at one `(pressure, flow_rate)` pair
`(p, q)`:  `(param[0] * x[1]) / (x[0] - x[1] * param[1]) + x[1] * param[2]`
with `x[0] = p` (TMP / pressure) and `x[1] = q` (flow rate). -/
def model {K : Type} [Field K] (param : Params K) (p q : K) : K :=
  (param.a * q) / (p - q * param.b) + q * param.d

/-- Vectorized evaluation of `model` over a batch, as numpy broadcasting does:
element-wise over the parallel sequences `x1` (pressures) and `x2` (flow rates). -/
def modelBatch {K : Type} [Field K] (param : Params K) (x1 x2 : List K) : List K :=
  List.zipWith (fun p q => model param p q) x1 x2

/-- `objective_function` from the source: `model(param, x) - y`, element-wise. -/
def objective_function {K : Type} [Field K] (param : Params K) (x1 x2 y : List K) : List K :=
  List.zipWith (fun m yv => m - yv) (modelBatch param x1 x2) y

/-- `jac` from the source: one row per sample (`len(x[0])` rows), columns
`J[:,0] = x[1]/(x[0] - x[1]*param[1])`,
`J[:,1] = (x[1]**2 * param[0])/(x[0] - x[1]*param[1])**2`,
`J[:,2] = x[1]`.  The `y` argument is accepted (scipy passes `args` to the
Jacobian callback too) and never used. -/
def jac {K : Type} [Field K] (param : Params K) (x1 x2 y : List K) : List (List K) :=
  (List.zip x1 x2).map (fun s =>
    [s.2 / (s.1 - s.2 * param.b),
     (s.2 ^ 2 * param.a) / (s.1 - s.2 * param.b) ^ 2,
     s.2])

/-- Float-aware evaluation of `model` at one sample: `none` models the
`inf`/`nan` output the source's float division produces when the denominator
`p - q·b` vanishes; otherwise the finite value. -/
def modelE (param : Params ℚ) (p q : ℚ) : Option ℚ :=
  if p - q * param.b = 0 then none else some (model param p q)

/-- Float-aware batch evaluation of `model`. -/
def modelBatchE (param : Params ℚ) (x1 x2 : List ℚ) : List (Option ℚ) :=
  List.zipWith (fun p q => modelE param p q) x1 x2

/-- Error kinds of §7: malformed/empty/non-numeric input vs a non-finite value
hit during evaluation. -/
inductive FitError where
  | dataError
  | numericError
deriving DecidableEq, Repr

/-- Raw CSV field as `get_data` returns it, unparsed: `some v` stands for text
that parses as the number `v`, `none` for text that does not parse as a number. -/
abbrev RawField := Option ℚ

/-- The mapping `get_data` returns: three aligned sequences of raw fields. -/
structure RawData where
  y : List RawField
  x_1 : List RawField
  x_2 : List RawField
deriving DecidableEq, Repr

/-- One loop body of `get_data`: `row[0]`, `row[1]`, `row[2]` — a row with fewer
than 3 fields raises IndexError (a DataError kind); extra fields are ignored. -/
def readRow (row : List RawField) : Except FitError (RawField × RawField × RawField) :=
  match row with
  | p :: q :: f :: _ => .ok (p, q, f)
  | _ => .error .dataError

/-- The `for row in csv_reader` loop of `get_data`: reads the rows in order,
stopping at the first row that raises. -/
def readRows : List (List RawField) → Except FitError (List (RawField × RawField × RawField))
  | [] => .ok []
  | row :: rest =>
    match readRow row with
    | .error e => .error e
    | .ok t =>
      match readRows rest with
      | .error e => .error e
      | .ok ts => .ok (t :: ts)

/-- `get_data` from the source: `next(csv_reader)` skips the header (raising
StopIteration, a DataError kind, on an empty file), then each remaining row
contributes `row[0]` to `x_1`, `row[1]` to `x_2` and `row[2]` to `y`.
No numeric parsing happens here: fields are passed through verbatim. -/
def get_data (rows : List (List RawField)) : Except FitError RawData :=
  match rows with
  | [] => .error .dataError
  | _ :: body =>
    match readRows body with
    | .error e => .error e
    | .ok triples =>
      .ok ⟨triples.map (fun t => t.2.2), triples.map (fun t => t.1),
        triples.map (fun t => t.2.1)⟩

/-- The conversion `np.array(strings, dtype=np.float)` in `create_model`: parses
every field to a number, raising a ValueError (DataError kind) on any field that
is not numeric. -/
def toFloatArray : List RawField → Except FitError (List ℚ)
  | [] => .ok []
  | none :: _ => .error .dataError
  | some v :: rest =>
    match toFloatArray rest with
    | .error e => .error e
    | .ok w => .ok (v :: w)

/-- Modelled from the spec: the residual evaluation handed to the solver together
with the solver's finiteness check `np.all(np.isfinite(f))` (§4.4 failure
semantics; the scipy solver itself is outside src/).  The result is non-finite —
`none` — exactly when some sample's denominator `pressure − flow_rate·b`
vanishes; otherwise the exact residual vector. -/
def objectiveE (x1 x2 y : List ℚ) (param : Params ℚ) : Option (List ℚ) :=
  if (List.zip x1 x2).all (fun s => s.1 - s.2 * param.b != 0) then
    some (objective_function param x1 x2 y)
  else none

/-- Sum of squared residuals, the cost the solver minimizes. -/
def cost (r : List ℚ) : ℚ := (r.map (fun t => t * t)).sum

/-- First three entries of a Jacobian row. -/
def row3 (r : List ℚ) : ℚ × ℚ × ℚ := (r.getD 0 0, r.getD 1 0, r.getD 2 0)

/-- Gradient `Jᵀ·r` of the half-squared cost. -/
def gradJTF (J : List (List ℚ)) (r : List ℚ) : ℚ × ℚ × ℚ :=
  (List.zip J r).foldl (fun g jr =>
    let j := row3 jr.1
    (g.1 + jr.2 * j.1, g.2.1 + jr.2 * j.2.1, g.2.2 + jr.2 * j.2.2)) (0, 0, 0)

/-- Infinity norm of a gradient triple. -/
def maxAbs3 (g : ℚ × ℚ × ℚ) : ℚ := max (max |g.1| |g.2.1|) |g.2.2|

/-- Symmetric 3×3 matrix (the normal-equations matrix `JᵀJ`). -/
structure Sym3 where
  m00 : ℚ
  m01 : ℚ
  m02 : ℚ
  m11 : ℚ
  m12 : ℚ
  m22 : ℚ
deriving DecidableEq, Repr

/-- Normal-equations matrix `JᵀJ` accumulated over the Jacobian rows. -/
def normalMat (J : List (List ℚ)) : Sym3 :=
  J.foldl (fun m row =>
    let j := row3 row
    ⟨m.m00 + j.1 * j.1, m.m01 + j.1 * j.2.1, m.m02 + j.1 * j.2.2,
     m.m11 + j.2.1 * j.2.1, m.m12 + j.2.1 * j.2.2, m.m22 + j.2.2 * j.2.2⟩)
    ⟨0, 0, 0, 0, 0, 0⟩

/-- Determinant of a 3×3 matrix given entrywise by rows. -/
def det3 (a00 a01 a02 a10 a11 a12 a20 a21 a22 : ℚ) : ℚ :=
  a00 * (a11 * a22 - a12 * a21) - a01 * (a10 * a22 - a12 * a20) +
    a02 * (a10 * a21 - a11 * a20)

/-- Modelled from the spec: solve the damped normal equations
`(JᵀJ + λI)·Δ = rhs` by Cramer's rule; `none` when the damped matrix is
singular (the step fails and damping must grow, §4.4 step 3). -/
def solveDamped (A : Sym3) (lam : ℚ) (rhs : ℚ × ℚ × ℚ) : Option (ℚ × ℚ × ℚ) :=
  let a00 := A.m00 + lam
  let a11 := A.m11 + lam
  let a22 := A.m22 + lam
  let dt := det3 a00 A.m01 A.m02 A.m01 a11 A.m12 A.m02 A.m12 a22
  if dt = 0 then none
  else
    some (det3 rhs.1 A.m01 A.m02 rhs.2.1 a11 A.m12 rhs.2.2 A.m12 a22 / dt,
      det3 a00 rhs.1 A.m02 A.m01 rhs.2.1 A.m12 A.m02 rhs.2.2 a22 / dt,
      det3 a00 A.m01 rhs.1 A.m01 a11 rhs.2.1 A.m02 A.m12 rhs.2.2 / dt)

/-- Gradient tolerance (scipy default `gtol = 1e-8`). -/
def gtol : ℚ := 1 / 100000000

/-- Step tolerance (scipy default `xtol = 1e-8`), compared against the squared
step norm. -/
def xtol : ℚ := 1 / 100000000

/-- Initial damping factor for the Levenberg-Marquardt style loop. -/
def lam0 : ℚ := 1 / 1000

/-- Iteration cap (scipy default `max_nfev = 100·n = 300` for 3 parameters). -/
def maxIter : Nat := 300

/-- Modelled from the spec: §4.4 steps 3–4 — compute a damped Gauss-Newton step,
accept it only if the cost decreases, otherwise grow the damping and retry
(without advancing the iteration count); a non-finite residual at a trial point
is a NumericError; when damping retries are exhausted, report no step. -/
def dampedStep (f : Params ℚ → Option (List ℚ)) (jf : Params ℚ → List (List ℚ))
    (params : Params ℚ) (r : List ℚ) :
    Nat → ℚ → Except FitError (Option (Params ℚ × List ℚ × ℚ × ℚ))
  | 0, _ => Except.ok none
  | n + 1, lam =>
    let J := jf params
    let g := gradJTF J r
    match solveDamped (normalMat J) lam (-g.1, -g.2.1, -g.2.2) with
    | none => dampedStep f jf params r n (lam * 10)
    | some step =>
      let next : Params ℚ := ⟨params.a + step.1, params.b + step.2.1, params.d + step.2.2⟩
      match f next with
      | none => Except.error FitError.numericError
      | some rNew =>
        if cost rNew < cost r then
          Except.ok (some (next, rNew, lam / 10,
            step.1 * step.1 + step.2.1 * step.2.1 + step.2.2 * step.2.2))
        else dampedStep f jf params r n (lam * 10)

/-- Modelled from the spec: the solver iteration of §4.4 — at each iteration
evaluate the Jacobian and gradient, terminate when the gradient norm is below
tolerance, when the step norm is below tolerance, when no cost-decreasing step
exists, or when the iteration cap is hit (returning the best-so-far parameters,
a non-fatal non-convergence).  The verbose level `v` only appends per-iteration
diagnostics (iteration index, cost, squared step norm) to the log; it never
feeds back into the computation. -/
def gnLoop (f : Params ℚ → Option (List ℚ)) (jf : Params ℚ → List (List ℚ)) (v : Nat) :
    Nat → Nat → Params ℚ → List ℚ → ℚ → List (Nat × ℚ × ℚ) →
    Except FitError (Params ℚ × List (Nat × ℚ × ℚ))
  | 0, _, params, _, _, log => Except.ok (params, log)
  | fuel + 1, iter, params, r, lam, log =>
    if maxAbs3 (gradJTF (jf params) r) ≤ gtol then Except.ok (params, log)
    else
      match dampedStep f jf params r 20 lam with
      | .error e => .error e
      | .ok none => .ok (params, log)
      | .ok (some (next, rNew, lamNew, stepsq)) =>
        let logNew := if v = 0 then log else log ++ [(iter, cost rNew, stepsq)]
        if stepsq ≤ xtol * xtol then .ok (next, logNew)
        else gnLoop f jf v fuel (iter + 1) next rNew lamNew logNew

/-- Modelled from the spec: `scipy.optimize.least_squares` as §4.4 specifies it —
check the residual at the initial point for non-finite values (NumericError on a
singularity hit, never a silent continuation), then run the damped iteration.
Returns the converged parameters together with the verbose diagnostic log. -/
def least_squares (f : Params ℚ → Option (List ℚ)) (x0 : Params ℚ)
    (jf : Params ℚ → List (List ℚ)) (v : Nat) :
    Except FitError (Params ℚ × List (Nat × ℚ × ℚ)) :=
  match f x0 with
  | none => Except.error FitError.numericError
  | some r0 => gnLoop f jf v maxIter 0 x0 r0 lam0 []

/-- `create_model` from the source: convert the three raw sequences to numeric
arrays (`np.array(..., dtype=np.float)` — a DataError on any non-numeric field),
fix the initial guess `[0.01, -0.1, 0.01]`, map the verbose flag to the solver's
verbosity level, run `least_squares` with `objective_function` and `jac`, and
return the learned parameters `res.x`. -/
def create_model (data : RawData) (verbose : Bool) : Except FitError (Params ℚ) :=
  match toFloatArray data.y with
  | .error e => .error e
  | .ok y_data =>
    match toFloatArray data.x_1 with
    | .error e => .error e
    | .ok x_1_data =>
      match toFloatArray data.x_2 with
      | .error e => .error e
      | .ok x_2_data =>
        let initial_guesses : Params ℚ := ⟨1 / 100, -(1 / 10), 1 / 100⟩
        let v : Nat := if verbose then 1 else 0
        match least_squares (objectiveE x_1_data x_2_data y_data) initial_guesses
            (fun param => jac param x_1_data x_2_data y_data) v with
        | .error e => .error e
        | .ok res => .ok res.1

/-- Helper: `zipWith` as a map over the zipped list. -/
theorem zipWith_eq_map_zip {α β γ : Type} (f : α → β → γ) (l1 : List α) (l2 : List β) :
    List.zipWith f l1 l2 = (List.zip l1 l2).map (fun s => f s.1 s.2) := by
  induction l1 generalizing l2 with
  | nil => simp
  | cons a t ih => cases l2 <;> simp_all

/-- C1: for every parameter vector `[a, b, d]`, every `(pressure, flow_rate)` pair
and element-wise over any batch of such pairs, the Model Evaluator returns
`(a·flow_rate)/(pressure − flow_rate·b) + flow_rate·d`. -/
theorem model_closed_form_elementwise {K : Type} [Field K] (param : Params K) (p q : K)
    (x1 x2 : List K) (hlen : x1.length = x2.length) (i : Nat) (hi : i < x1.length) :
    model param p q = (param.a * q) / (p - q * param.b) + q * param.d ∧
    (modelBatch param x1 x2).getD i 0 =
      (param.a * x2.getD i 0) / (x1.getD i 0 - x2.getD i 0 * param.b) +
        x2.getD i 0 * param.d := by
  refine ⟨rfl, ?_⟩
  have hi2 : i < x2.length := hlen ▸ hi
  have hm : i < (modelBatch param x1 x2).length := by
    simp only [modelBatch, List.length_zipWith]
    omega
  rw [List.getD_eq_getElem _ _ hm, List.getD_eq_getElem _ _ hi, List.getD_eq_getElem _ _ hi2]
  simp [modelBatch, model]

/-- Witness for C1 at param `[1,2,3]`, pair `(5,6)`, batch `x1 = [3]`, `x2 = [1]`, index 0. -/
theorem model_closed_form_elementwise_witness :
    (([3] : List ℚ).length = ([1] : List ℚ).length) ∧ 0 < ([3] : List ℚ).length ∧
    (model (⟨1, 2, 3⟩ : Params ℚ) 5 6 = ((1 : ℚ) * 6) / (5 - 6 * 2) + 6 * 3 ∧
      (modelBatch (⟨1, 2, 3⟩ : Params ℚ) [3] [1]).getD 0 0 =
        ((1 : ℚ) * 1) / (3 - 1 * 2) + 1 * 3) :=
  ⟨rfl, by norm_num,
    model_closed_form_elementwise ⟨1, 2, 3⟩ 5 6 [3] [1] rfl 0 (by norm_num)⟩

/-- C3: the Residual Function returns exactly `model(params, x) − y` element-wise,
an exact identity in the field. -/
theorem objective_is_model_minus_y {K : Type} [Field K] (param : Params K)
    (x1 x2 y : List K) (hlen : x1.length = x2.length) (hy : y.length = x1.length)
    (i : Nat) (hi : i < x1.length) :
    (objective_function param x1 x2 y).getD i 0 =
      (modelBatch param x1 x2).getD i 0 - y.getD i 0 := by
  have hi2 : i < x2.length := hlen ▸ hi
  have hiy : i < y.length := hy ▸ hi
  have hmb : i < (modelBatch param x1 x2).length := by
    simp only [modelBatch, List.length_zipWith]
    omega
  have ho : i < (objective_function param x1 x2 y).length := by
    simp only [objective_function, modelBatch, List.length_zipWith]
    omega
  rw [List.getD_eq_getElem _ _ ho, List.getD_eq_getElem _ _ hmb, List.getD_eq_getElem _ _ hiy]
  simp [objective_function]

/-- Witness for C3 at param `[1,2,3]`, `x1 = [3]`, `x2 = [1]`, `y = [7]`, index 0. -/
theorem objective_is_model_minus_y_witness :
    (([3] : List ℚ).length = ([1] : List ℚ).length) ∧
    (([7] : List ℚ).length = ([3] : List ℚ).length) ∧ 0 < ([3] : List ℚ).length ∧
    (objective_function (⟨1, 2, 3⟩ : Params ℚ) [3] [1] [7]).getD 0 0 =
      (modelBatch (⟨1, 2, 3⟩ : Params ℚ) [3] [1]).getD 0 0 - ([7] : List ℚ).getD 0 0 :=
  ⟨rfl, rfl, by norm_num,
    objective_is_model_minus_y ⟨1, 2, 3⟩ [3] [1] [7] rfl rfl 0 (by norm_num)⟩

/-- C6: the Jacobian Provider ignores the observed outputs `y`: swapping any two
observed-output vectors leaves the Jacobian unchanged (here the two sides are
even definitionally equal, since `jac` never reads its `y` argument). -/
theorem jac_independent_of_y {K : Type} [Field K] (param : Params K)
    (x1 x2 y1 y2 : List K) : jac param x1 x2 y1 = jac param x1 x2 y2 := rfl

/-- C8: with a length-3 parameter vector and `n` samples, the residual vector has
length `n` and the Jacobian has shape `(n, 3)`. -/
theorem residual_jacobian_shapes {K : Type} [Field K] (param : Params K)
    (x1 x2 y : List K) (n : Nat) (h1 : x1.length = n) (h2 : x2.length = n)
    (h3 : y.length = n) :
    (objective_function param x1 x2 y).length = n ∧
    (jac param x1 x2 y).length = n ∧
    ∀ row ∈ jac param x1 x2 y, row.length = 3 := by
  refine ⟨?_, ?_, ?_⟩
  · simp only [objective_function, modelBatch, List.length_zipWith, h1, h2, h3]
    omega
  · simp only [jac, List.length_map, List.length_zip, h1, h2]
    omega
  · intro row hrow
    simp only [jac, List.mem_map] at hrow
    obtain ⟨s, _, hs⟩ := hrow
    rw [← hs]
    rfl

/-- Witness for C8 at param `[1,2,3]` and the two-sample batch
`x1 = [3,4]`, `x2 = [1,1]`, `y = [7,8]`. -/
theorem residual_jacobian_shapes_witness :
    ([3, 4] : List ℚ).length = 2 ∧ ([1, 1] : List ℚ).length = 2 ∧
    ([7, 8] : List ℚ).length = 2 ∧
    ((objective_function (⟨1, 2, 3⟩ : Params ℚ) [3, 4] [1, 1] [7, 8]).length = 2 ∧
      (jac (⟨1, 2, 3⟩ : Params ℚ) [3, 4] [1, 1] [7, 8]).length = 2 ∧
      ∀ row ∈ jac (⟨1, 2, 3⟩ : Params ℚ) [3, 4] [1, 1] [7, 8], row.length = 3) :=
  ⟨rfl, rfl, rfl, residual_jacobian_shapes ⟨1, 2, 3⟩ [3, 4] [1, 1] [7, 8] 2 rfl rfl rfl⟩

/-- C9: on a batch whose denominators `pressure − flow_rate·b` are all nonzero,
the float-aware evaluator never hits the singular division: every entry is a
finite value (`some`), equal to the closed-form expression. -/
theorem model_finite_on_nonsingular_batch (param : Params ℚ) (x1 x2 : List ℚ)
    (h : ∀ s ∈ List.zip x1 x2, s.1 - s.2 * param.b ≠ 0) :
    modelBatchE param x1 x2 = (modelBatch param x1 x2).map some := by
  induction x1 generalizing x2 with
  | nil => simp [modelBatchE, modelBatch]
  | cons p t ih =>
    cases x2 with
    | nil => simp [modelBatchE, modelBatch]
    | cons q t2 =>
      have hhead : p - q * param.b ≠ 0 := h (p, q) (by simp)
      have htail : ∀ s ∈ List.zip t t2, s.1 - s.2 * param.b ≠ 0 := by
        intro s hs
        exact h s (by simp [hs])
      simp only [modelBatchE, modelBatch, List.zipWith, List.map] at ih ⊢
      rw [modelE, if_neg hhead]
      exact congrArg _ (ih t2 htail)

/-- Witness for C9 at param `[1,2,3]`, `x1 = [3,4]`, `x2 = [1,1]` (denominators 1 and 2). -/
theorem model_finite_on_nonsingular_batch_witness :
    (∀ s ∈ List.zip ([3, 4] : List ℚ) ([1, 1] : List ℚ), s.1 - s.2 * (2 : ℚ) ≠ 0) ∧
    modelBatchE ⟨1, 2, 3⟩ [3, 4] [1, 1] =
      (modelBatch (⟨1, 2, 3⟩ : Params ℚ) [3, 4] [1, 1]).map some := by
  have h : ∀ s ∈ List.zip ([3, 4] : List ℚ) ([1, 1] : List ℚ), s.1 - s.2 * (2 : ℚ) ≠ 0 := by
    intro s hs
    simp only [List.zip, List.zipWith, List.mem_cons] at hs
    rcases hs with h1 | h2 | h3
    · rw [h1]; norm_num
    · rw [h2]; norm_num
    · simp at h3
  exact ⟨h, model_finite_on_nonsingular_batch ⟨1, 2, 3⟩ [3, 4] [1, 1] h⟩

/-- Helper: the three partial derivatives of the model expression at one sample,
as functions of each parameter with the others held fixed. -/
theorem model_hasDerivAt (a b d p q : ℝ) (h : p - q * b ≠ 0) :
    HasDerivAt (fun t => model ⟨t, b, d⟩ p q) (q / (p - q * b)) a ∧
    HasDerivAt (fun t => model ⟨a, t, d⟩ p q) ((q ^ 2 * a) / (p - q * b) ^ 2) b ∧
    HasDerivAt (fun t => model ⟨a, b, t⟩ p q) q d := by
  refine ⟨?_, ?_, ?_⟩
  · have h0 : HasDerivAt (fun t : ℝ => t * (q / (p - q * b)) + q * d)
        (q / (p - q * b)) a :=
      (hasDerivAt_mul_const (q / (p - q * b))).add_const (q * d)
    simpa [model, mul_div_assoc] using h0
  · have hu : HasDerivAt (fun t : ℝ => p - q * t) (0 - q * 1) b :=
      (hasDerivAt_const b p).sub ((hasDerivAt_id b).const_mul q)
    have hdiv := ((hasDerivAt_const b (a * q)).div hu h).add_const (q * d)
    have hgoal : HasDerivAt (fun t : ℝ => (a * q) / (p - q * t) + q * d)
        ((q ^ 2 * a) / (p - q * b) ^ 2) b := by
      convert hdiv using 1
      field_simp
      ring
    simpa [model] using hgoal
  · have h2 : HasDerivAt (fun t : ℝ => (a * q) / (p - q * b) + q * t) (q * 1) d :=
      ((hasDerivAt_id d).const_mul q).const_add ((a * q) / (p - q * b))
    simpa [model] using h2

/-- C2: on any batch with nonzero denominators, row `i` of the Jacobian is, in
column order, exactly the three partial derivatives of the Model Evaluator's
expression with respect to `a`, `b`, `d` at sample `i`. -/
theorem jac_rows_are_exact_partials (param : Params ℝ) (x1 x2 y : List ℝ)
    (hlen : x1.length = x2.length) (i : Nat) (hi : i < x1.length)
    (hden : x1.getD i 0 - x2.getD i 0 * param.b ≠ 0) :
    (jac param x1 x2 y).getD i [] =
      [x2.getD i 0 / (x1.getD i 0 - x2.getD i 0 * param.b),
       (x2.getD i 0 ^ 2 * param.a) / (x1.getD i 0 - x2.getD i 0 * param.b) ^ 2,
       x2.getD i 0] ∧
    HasDerivAt (fun t => model ⟨t, param.b, param.d⟩ (x1.getD i 0) (x2.getD i 0))
      (x2.getD i 0 / (x1.getD i 0 - x2.getD i 0 * param.b)) param.a ∧
    HasDerivAt (fun t => model ⟨param.a, t, param.d⟩ (x1.getD i 0) (x2.getD i 0))
      ((x2.getD i 0 ^ 2 * param.a) / (x1.getD i 0 - x2.getD i 0 * param.b) ^ 2) param.b ∧
    HasDerivAt (fun t => model ⟨param.a, param.b, t⟩ (x1.getD i 0) (x2.getD i 0))
      (x2.getD i 0) param.d := by
  obtain ⟨hda, hdb, hdd⟩ :=
    model_hasDerivAt param.a param.b param.d (x1.getD i 0) (x2.getD i 0) hden
  refine ⟨?_, hda, hdb, hdd⟩
  have hi2 : i < x2.length := hlen ▸ hi
  have hj : i < (jac param x1 x2 y).length := by
    simp only [jac, List.length_map, List.length_zip]
    omega
  have hz : i < (List.zip x1 x2).length := by
    simp only [List.length_zip]
    omega
  rw [List.getD_eq_getElem _ _ hj, List.getD_eq_getElem _ _ hi, List.getD_eq_getElem _ _ hi2]
  simp [jac]

/-- Witness for C2 at param `[1,2,3]`, batch `x1 = [3]`, `x2 = [1]`, index 0
(denominator `3 − 1·2 = 1`). -/
theorem jac_rows_are_exact_partials_witness :
    (([3] : List ℝ).length = ([1] : List ℝ).length) ∧ 0 < ([3] : List ℝ).length ∧
    ((3 : ℝ) - 1 * 2 ≠ 0) ∧
    ((jac (⟨1, 2, 3⟩ : Params ℝ) [3] [1] [7]).getD 0 [] =
        [(1 : ℝ) / (3 - 1 * 2), ((1 : ℝ) ^ 2 * 1) / (3 - 1 * 2) ^ 2, 1] ∧
      HasDerivAt (fun t => model (⟨t, 2, 3⟩ : Params ℝ) 3 1) ((1 : ℝ) / (3 - 1 * 2)) 1 ∧
      HasDerivAt (fun t => model (⟨1, t, 3⟩ : Params ℝ) 3 1)
        (((1 : ℝ) ^ 2 * 1) / (3 - 1 * 2) ^ 2) 2 ∧
      HasDerivAt (fun t => model (⟨1, 2, t⟩ : Params ℝ) 3 1) (1 : ℝ) 3) := by
  have h := jac_rows_are_exact_partials (⟨1, 2, 3⟩ : Params ℝ) [3] [1] [7] rfl 0
    (by norm_num) (by norm_num)
  refine ⟨rfl, by norm_num, by norm_num, ?_⟩
  simpa using h

/-- Helper: numeric conversion fails with a DataError as soon as any field is
non-numeric. -/
theorem toFloatArray_none {l : List RawField} (h : none ∈ l) :
    toFloatArray l = .error .dataError := by
  induction l with
  | nil => simp at h
  | cons a t ih =>
    cases a with
    | none => rfl
    | some v =>
      have ht : none ∈ t := by
        rcases List.mem_cons.mp h with h1 | h1
        · exact absurd h1.symm (by simp)
        · exact h1
      simp [toFloatArray, ih ht]

/-- Helper: numeric conversion either succeeds or fails with a DataError; no
other error kind can come out of it. -/
theorem toFloatArray_total (l : List RawField) :
    (∃ v, toFloatArray l = .ok v) ∨ toFloatArray l = .error .dataError := by
  induction l with
  | nil => exact .inl ⟨[], rfl⟩
  | cons a t ih =>
    cases a with
    | none => exact .inr rfl
    | some v =>
      rcases ih with ⟨w, hw⟩ | hw
      · exact .inl ⟨v :: w, by simp [toFloatArray, hw]⟩
      · exact .inr (by simp [toFloatArray, hw])

/-- Helper: a row with fewer than three fields makes `get_data` raise
(IndexError, a DataError kind). -/
theorem readRow_short {row : List RawField} (h : row.length < 3) :
    readRow row = .error .dataError := by
  match row with
  | [] => rfl
  | [_] => rfl
  | [_, _] => rfl
  | p :: q :: f :: rest => exact absurd h (by simp)

/-- Helper: a row with at least three fields is read verbatim, with fields
beyond the third ignored. -/
theorem readRow_long {row : List RawField} (h : 3 ≤ row.length) :
    readRow row = .ok (row.getD 0 none, row.getD 1 none, row.getD 2 none) := by
  match row with
  | [] => simp at h
  | [_] => simp at h
  | [_, _] => simp at h
  | p :: q :: f :: rest => rfl

/-- Helper: a row read either succeeds or fails with a DataError; no other
error kind can come out of it. -/
theorem readRow_total (row : List RawField) :
    (∃ t, readRow row = .ok t) ∨ readRow row = .error .dataError := by
  match row with
  | [] => exact .inr rfl
  | [_] => exact .inr rfl
  | [_, _] => exact .inr rfl
  | p :: q :: f :: rest => exact .inl ⟨(p, q, f), rfl⟩

/-- Helper: reading the body rows fails with a DataError when some row is
shorter than three fields. -/
theorem readRows_short {body : List (List RawField)}
    (h : ∃ row ∈ body, row.length < 3) :
    readRows body = .error .dataError := by
  induction body with
  | nil => simp at h
  | cons a t ih =>
    obtain ⟨row, hmem, hrow⟩ := h
    rcases List.mem_cons.mp hmem with h1 | h1
    · rw [readRows, readRow_short (h1 ▸ hrow)]
    · rcases readRow_total a with ⟨triple, ha⟩ | ha
      · rw [readRows, ha, ih ⟨row, h1, hrow⟩]
      · rw [readRows, ha]

/-- Helper: when every row has at least three fields, `get_data`'s row pass
succeeds and returns the first three fields of each row verbatim. -/
theorem readRows_long {body : List (List RawField)}
    (h : ∀ row ∈ body, 3 ≤ row.length) :
    readRows body =
      .ok (body.map (fun r => (r.getD 0 none, r.getD 1 none, r.getD 2 none))) := by
  induction body with
  | nil => rfl
  | cons a t ih =>
    rw [readRows, readRow_long (h a (by simp)), ih (fun row hr => h row (by simp [hr]))]
    rfl

/-- Helper: the solver loop stops at once — before any iteration — when the
gradient norm is already below tolerance. -/
theorem gnLoop_grad_small (f : Params ℚ → Option (List ℚ))
    (jf : Params ℚ → List (List ℚ)) (v fuel iter : Nat) (params : Params ℚ)
    (r : List ℚ) (lam : ℚ) (log : List (Nat × ℚ × ℚ))
    (h : maxAbs3 (gradJTF (jf params) r) ≤ gtol) :
    gnLoop f jf v fuel iter params r lam log = .ok (params, log) := by
  cases fuel with
  | zero => rfl
  | succ n => simp [gnLoop, h]

/-- Helper: the parameters the solver loop returns do not depend on the verbose
level, the iteration counter used for labelling, or the accumulated log. -/
theorem gnLoop_fst_indep (f : Params ℚ → Option (List ℚ))
    (jf : Params ℚ → List (List ℚ)) (fuel : Nat) :
    ∀ (v1 v2 iter1 iter2 : Nat) (params : Params ℚ) (r : List ℚ) (lam : ℚ)
      (log1 log2 : List (Nat × ℚ × ℚ)),
      (gnLoop f jf v1 fuel iter1 params r lam log1).map Prod.fst =
        (gnLoop f jf v2 fuel iter2 params r lam log2).map Prod.fst := by
  induction fuel with
  | zero => intros; rfl
  | succ n ih =>
    intro v1 v2 iter1 iter2 params r lam log1 log2
    by_cases hg : maxAbs3 (gradJTF (jf params) r) ≤ gtol
    · rw [gnLoop_grad_small f jf v1 (n + 1) iter1 params r lam log1 hg,
        gnLoop_grad_small f jf v2 (n + 1) iter2 params r lam log2 hg]
      rfl
    · simp only [gnLoop, if_neg hg]
      cases hstep : dampedStep f jf params r 20 lam with
      | error e => rfl
      | ok o =>
        cases o with
        | none => rfl
        | some t =>
          obtain ⟨next, rNew, lamNew, stepsq⟩ := t
          by_cases hs : stepsq ≤ xtol * xtol
          · simp [hs, Except.map]
          · simp only [if_neg hs]
            exact ih v1 v2 (iter1 + 1) (iter2 + 1) next rNew lamNew _ _

/-- Helper: the fitted parameters out of the solver do not depend on the verbose
level. -/
theorem least_squares_fst_indep (f : Params ℚ → Option (List ℚ)) (x0 : Params ℚ)
    (jf : Params ℚ → List (List ℚ)) (v1 v2 : Nat) :
    (least_squares f x0 jf v1).map Prod.fst =
      (least_squares f x0 jf v2).map Prod.fst := by
  unfold least_squares
  cases f x0 with
  | none => rfl
  | some r0 => exact gnLoop_fst_indep f jf maxIter v1 v2 0 0 x0 r0 lam0 [] []

/-- C4: on any dataset that parses numerically but contains a sample with
`pressure = flow_rate · b` at the initial guess `b = −0.1` (so the residual and
Jacobian are non-finite there), `create_model` reports a NumericError instead of
returning a parameter vector; the solver does not continue past the non-finite
value. -/
theorem create_model_numeric_error_on_singular (data : RawData) (verbose : Bool)
    (y x1 x2 : List ℚ)
    (hy : toFloatArray data.y = .ok y)
    (h1 : toFloatArray data.x_1 = .ok x1)
    (h2 : toFloatArray data.x_2 = .ok x2)
    (hsing : ∃ s ∈ List.zip x1 x2, s.1 - s.2 * (-(1 / 10) : ℚ) = 0) :
    create_model data verbose = .error .numericError := by
  obtain ⟨s, hmem, hzero⟩ := hsing
  have hall : (List.zip x1 x2).all
      (fun s => s.1 - s.2 * ((⟨1 / 100, -(1 / 10), 1 / 100⟩ : Params ℚ)).b != 0) = false := by
    rw [List.all_eq_false]
    refine ⟨s, hmem, ?_⟩
    simp only [bne_iff_ne, ne_eq, not_not]
    linarith [hzero]
  have hobj : objectiveE x1 x2 y ⟨1 / 100, -(1 / 10), 1 / 100⟩ = none := by
    rw [objectiveE, hall]
    rfl
  unfold create_model
  rw [hy, h1, h2]
  simp only [least_squares, hobj]

/-- Witness for C4: one sample with `pressure = 1`, `flow_rate = −10`, so that
`pressure − flow_rate·(−0.1) = 1 − 1 = 0` at the initial guess. -/
theorem create_model_numeric_error_on_singular_witness :
    toFloatArray [some 0] = .ok [0] ∧ toFloatArray [some 1] = .ok [1] ∧
    toFloatArray [some (-10)] = .ok [-10] ∧
    (∃ s ∈ List.zip [(1 : ℚ)] [(-10 : ℚ)], s.1 - s.2 * (-(1 / 10) : ℚ) = 0) ∧
    create_model ⟨[some 0], [some 1], [some (-10)]⟩ false = .error .numericError :=
  ⟨rfl, rfl, rfl, ⟨(1, -10), by simp, by norm_num⟩,
    create_model_numeric_error_on_singular ⟨[some 0], [some 1], [some (-10)]⟩ false
      [0] [1] [-10] rfl rfl rfl ⟨(1, -10), by simp, by norm_num⟩⟩

/-- Counterexample to C5 as stated: on the empty dataset, `create_model` raises
no DataError at all — it returns the initial guess `[0.01, −0.1, 0.01]`
untouched (the gradient criterion holds vacuously at zero samples, so the
solver performs no iterations and reports success). -/
theorem create_model_empty_no_data_error :
    create_model ⟨[], [], []⟩ false ≠ Except.error FitError.dataError ∧
    create_model ⟨[], [], []⟩ false =
      Except.ok ⟨1 / 100, -(1 / 10), 1 / 100⟩ := by
  have hloop := gnLoop_grad_small (objectiveE [] [] [])
    (fun param => jac param [] [] []) (if false = true then 1 else 0) maxIter 0
    ⟨1 / 100, -(1 / 10), 1 / 100⟩ [] lam0 []
    (by norm_num [maxAbs3, gradJTF, gtol, jac])
  have hmain : create_model ⟨[], [], []⟩ false =
      Except.ok ⟨1 / 100, -(1 / 10), 1 / 100⟩ := by
    unfold create_model
    simp only [least_squares]
    have hobj : objectiveE [] [] [] ⟨1 / 100, -(1 / 10), 1 / 100⟩ = some [] := rfl
    rw [show toFloatArray [] = Except.ok [] from rfl]
    simp only [hobj, hloop]
  exact ⟨by rw [hmain]; exact fun h => by simp at h, hmain⟩

/-- C5 amended: on the empty dataset (zero samples) `create_model` performs no
emptiness validation and raises no DataError; the solver terminates before any
iteration (the gradient criterion is met vacuously) and the initial guess
`[0.01, −0.1, 0.01]` is returned as the fit result, for either verbosity. -/
theorem create_model_empty_returns_initial_guess (verbose : Bool) :
    create_model ⟨[], [], []⟩ verbose =
      Except.ok ⟨1 / 100, -(1 / 10), 1 / 100⟩ := by
  have hloop := gnLoop_grad_small (objectiveE [] [] [])
    (fun param => jac param [] [] []) (if verbose = true then 1 else 0) maxIter 0
    ⟨1 / 100, -(1 / 10), 1 / 100⟩ [] lam0 []
    (by norm_num [maxAbs3, gradJTF, gtol, jac])
  unfold create_model
  simp only [least_squares]
  have hobj : objectiveE [] [] [] ⟨1 / 100, -(1 / 10), 1 / 100⟩ = some [] := rfl
  rw [show toFloatArray [] = Except.ok [] from rfl]
  simp only [hobj, hloop]

/-- C7: the verbosity flag is observational only — `create_model` returns the
same result (fitted parameters or error) with verbose on as with verbose off;
diagnostics never change the computation or the error propagation. -/
theorem create_model_verbose_observational (data : RawData) :
    create_model data true = create_model data false := by
  unfold create_model
  cases toFloatArray data.y with
  | error e => rfl
  | ok y_data =>
    cases toFloatArray data.x_1 with
    | error e => rfl
    | ok x_1_data =>
      cases toFloatArray data.x_2 with
      | error e => rfl
      | ok x_2_data =>
        have h := least_squares_fst_indep (objectiveE x_1_data x_2_data y_data)
          ⟨1 / 100, -(1 / 10), 1 / 100⟩
          (fun param => jac param x_1_data x_2_data y_data) 1 0
        simp only [if_pos trivial, show (if false = true then 1 else 0) = 0 from rfl]
        cases ht : least_squares (objectiveE x_1_data x_2_data y_data)
            ⟨1 / 100, -(1 / 10), 1 / 100⟩
            (fun param => jac param x_1_data x_2_data y_data) 1 with
        | error e =>
          cases hf : least_squares (objectiveE x_1_data x_2_data y_data)
              ⟨1 / 100, -(1 / 10), 1 / 100⟩
              (fun param => jac param x_1_data x_2_data y_data) 0 with
          | error e2 =>
            rw [ht, hf] at h
            simp only [Except.map] at h
            simp only [ht, hf]
            rw [show e = e2 by exact Except.error.inj h]
          | ok p2 =>
            rw [ht, hf] at h
            simp [Except.map] at h
        | ok p1 =>
          cases hf : least_squares (objectiveE x_1_data x_2_data y_data)
              ⟨1 / 100, -(1 / 10), 1 / 100⟩
              (fun param => jac param x_1_data x_2_data y_data) 0 with
          | error e2 =>
            rw [ht, hf] at h
            simp [Except.map] at h
          | ok p2 =>
            rw [ht, hf] at h
            simp only [Except.map] at h
            simp only [ht, hf]
            rw [Except.ok.inj h]

/-- Counterexample to C10 as stated: a file whose data row has a non-numeric
second field passes through `get_data` untouched — the loader raises nothing —
and the DataError is raised only later, by the core's `create_model`, when it
performs the numeric conversion `np.array(..., dtype=np.float)` itself. -/
theorem get_data_passes_nonnumeric_to_core :
    get_data [[none, none, none], [some 1, none, some 2]] =
      Except.ok ⟨[some 2], [some 1], [none]⟩ ∧
    create_model ⟨[some 2], [some 1], [none]⟩ false =
      Except.error FitError.dataError := by
  exact ⟨rfl, rfl⟩

/-- C10 amended: a ragged (shorter-than-three-fields) row does make the loader
raise the DataError; but a non-numeric field is not detected by the loader —
`get_data` passes all fields through verbatim, performing no numeric parsing —
and the DataError for non-numeric data is raised by the core (`create_model`)
during its own numeric conversion. -/
theorem loader_raises_ragged_core_raises_nonnumeric (header : List RawField)
    (body : List (List RawField)) (data : RawData) (verbose : Bool) :
    ((∃ row ∈ body, row.length < 3) →
      get_data (header :: body) = .error .dataError) ∧
    ((∀ row ∈ body, 3 ≤ row.length) →
      get_data (header :: body) =
        .ok ⟨body.map (fun r => r.getD 2 none), body.map (fun r => r.getD 0 none),
          body.map (fun r => r.getD 1 none)⟩) ∧
    ((none ∈ data.y ∨ none ∈ data.x_1 ∨ none ∈ data.x_2) →
      create_model data verbose = .error .dataError) := by
  refine ⟨?_, ?_, ?_⟩
  · intro h
    simp only [get_data]
    rw [readRows_short h]
  · intro h
    simp only [get_data]
    rw [readRows_long h]
    simp [List.map_map, Function.comp]
  · intro h
    unfold create_model
    rcases h with hy | hx1 | hx2
    · rw [toFloatArray_none hy]
    · rcases toFloatArray_total data.y with ⟨v, hv⟩ | hv
      · rw [hv, toFloatArray_none hx1]
      · rw [hv]
    · rcases toFloatArray_total data.y with ⟨v, hv⟩ | hv
      · rw [hv]
        rcases toFloatArray_total data.x_1 with ⟨w, hw⟩ | hw
        · rw [hw, toFloatArray_none hx2]
        · rw [hw]
      · rw [hv]

/-- Witness for the amended C10, exercising all three parts: a ragged file, a
well-formed but non-numeric file, and a core run on non-numeric data. -/
theorem loader_raises_ragged_core_raises_nonnumeric_witness :
    (∃ row ∈ [[some (1 : ℚ)]], row.length < 3) ∧
    get_data [[none, none, none], [some 1]] = .error .dataError ∧
    (none ∈ ([none] : List RawField) ∨ none ∈ ([some 1] : List RawField) ∨
      none ∈ ([some 2] : List RawField)) ∧
    create_model ⟨[none], [some 1], [some 2]⟩ false = .error .dataError :=
  ⟨⟨[some 1], by simp, by norm_num⟩,
    (loader_raises_ragged_core_raises_nonnumeric [none, none, none] [[some 1]]
      ⟨[none], [some 1], [some 2]⟩ false).1 ⟨[some 1], by simp, by norm_num⟩,
    Or.inl (by simp),
    (loader_raises_ragged_core_raises_nonnumeric [none, none, none] [[some 1]]
      ⟨[none], [some 1], [some 2]⟩ false).2.2 (Or.inl (by simp))⟩
